import Mathlib

/-!
Verification of `src/thevoices/__main__.py` (the The-Voices MCP server).

The two tool operations are shallowly embedded:

* `list_available_models` — provider availability derived from an
  environment snapshot, catalog filtering through an injected
  provider-inference function, optional insertion of the selected model,
  and a final lexicographic sort.
* `ask_the_voice` — model resolution, persona prompt compilation,
  dispatch to an injected completion function, and response extraction.

Python specifics carried over: `os.environ.get` truthiness (an empty
string is falsy), `model or default` falling back on the empty string,
dict-key presence for the optional temperature parameter, and
`list.sort()` as a stable code-point-lexicographic sort (modelled with
`List.insertionSort`, which is stable and hence produces the same list).
External collaborators (`model_list`, `get_llm_provider`, `completion`)
are injected as parameters; a `none` / `.error` result stands for a
raised exception at the corresponding call site.
-/

/-- An environment snapshot: variable name to value, `none` when unset. -/
abbrev Env : Type := String → Option String

/-- Python truthiness of `os.environ.get`: present with a non-empty value. -/
def strTruthy : Option String → Bool
  | some s => !s.isEmpty
  | none => false

/-- Truthiness of the environment variable `k` in snapshot `env`. -/
def envTruthy (env : Env) (k : String) : Bool := strTruthy (env k)

/-- `env` with variable `k` set to `v` (`none` = unset), others unchanged. -/
def setVar (env : Env) (k : String) (v : Option String) : Env :=
  fun x => if x = k then v else env x

/-- A provider's required environment variables: either one key, or a
list of keys that must all be present (the two value shapes occurring in
`provider_key_mapping`, lines 27-41). -/
inductive KeyReq where
  | single (key : String)
  | multi (keys : List String)
deriving DecidableEq

/-- The required variable names of a requirement. -/
def KeyReq.names : KeyReq → List String
  | .single k => [k]
  | .multi ks => ks

/-- The `provider_key_mapping` table of `list_available_models`
(lines 27-41 of `__main__.py`). -/
def provider_key_mapping : List (String × KeyReq) :=
  [ ("openai", .single "OPENAI_API_KEY"),
    ("anthropic", .single "ANTHROPIC_API_KEY"),
    ("vertex_ai", .multi ["VERTEXAI_PROJECT", "VERTEXAI_LOCATION"]),
    ("azure", .multi ["AZURE_API_KEY", "AZURE_API_BASE"]),
    ("cohere", .single "COHERE_API_KEY"),
    ("huggingface", .single "HUGGINGFACE_API_KEY"),
    ("replicate", .single "REPLICATE_API_TOKEN"),
    ("together_ai", .single "TOGETHERAI_API_KEY"),
    ("openrouter", .single "OPENROUTER_API_KEY"),
    ("ai21", .single "AI21_API_KEY"),
    ("palm", .single "PALM_API_KEY"),
    ("bedrock", .multi ["AWS_ACCESS_KEY_ID", "AWS_SECRET_ACCESS_KEY"]),
    ("sagemaker", .multi ["AWS_ACCESS_KEY_ID", "AWS_SECRET_ACCESS_KEY"]) ]

/-- The availability check of lines 46-54: a single key must be truthy,
every key of a key list must be truthy. -/
def KeyReq.satisfied (env : Env) : KeyReq → Bool
  | .single k => envTruthy env k
  | .multi ks => ks.all (envTruthy env)

/-- The `available_providers` set of lines 43-54, modelled as the sublist
of providers whose requirement is satisfied.  The provider names in
`provider_key_mapping` are pairwise distinct, so list membership agrees
with membership in the Python set. -/
def availableProviders (env : Env) : List String :=
  (provider_key_mapping.filter (fun pr => pr.2.satisfied env)).map Prod.fst

/-- Code-point lexicographic comparison of char lists: the order Python
uses to compare strings. -/
def lexLe : List Char → List Char → Bool
  | [], _ => true
  | _ :: _, [] => false
  | a :: as, b :: bs =>
    if a.toNat < b.toNat then true
    else if b.toNat < a.toNat then false
    else lexLe as bs

/-- Python string comparison, as a relation on Lean strings. -/
def strLe (s t : String) : Prop := lexLe s.data t.data = true

instance : DecidableRel strLe :=
  fun s t => inferInstanceAs (Decidable (lexLe s.data t.data = true))

/-- `available_models.sort()` (line 75): a stable lexicographic sort. -/
def pySort (l : List String) : List String := List.insertionSort strLe l

/-- `list_available_models` (lines 15-77).  The external `model_list` and
`get_llm_provider` are injected; `get_llm_provider m = none` stands for
the Python call raising on `m`, which the `except` of lines 65-67 turns
into skipping that entry. -/
def list_available_models (env : Env) (model_list : List String)
    (get_llm_provider : String → Option String) : List String :=
  let available_providers := availableProviders env
  let filtered := model_list.filterMap (fun m =>
    match get_llm_provider m with
    | some provider =>
      if provider ∈ available_providers then some (provider ++ "/" ++ m)
      else none
    | none => none)
  let with_current :=
    match env "LITELLM_MODEL" with
    | some current => if current.isEmpty then filtered else current :: filtered
    | none => filtered
  pySort with_current

/-- A chat message (the dicts of lines 249-255). -/
structure Message where
  role : String
  content : String
deriving DecidableEq

/-- The keyword arguments handed to `completion` (lines 247-260).  The
`temperature` key is present in the Python dict iff the field is `some`;
values stay abstract in `α` because only their presence matters here. -/
structure CompletionParams (α : Type) where
  model : String
  messages : List Message
  temperature : Option α
deriving DecidableEq

/-- The `message` member of a response choice: `content` is `none` when
the attribute is missing (an AttributeError on access), `some none` when
the attribute holds Python `None`. -/
structure RespMessage where
  content : Option (Option String)
deriving DecidableEq

/-- One element of `response.choices`; `message` is `none` when the
attribute is missing. -/
structure RespChoice where
  message : Option RespMessage
deriving DecidableEq

/-- The downstream response: `choices` is `none` when the attribute is
missing. -/
structure Response where
  choices : Option (List RespChoice)
deriving DecidableEq

/-- `response.choices[0].message.content` guarded by the
`except (AttributeError, IndexError)` of lines 266-271; the `.error` tag
records which access raised.  A `None` content returns `""` (line 269). -/
def extractContent (r : Response) : Except String String :=
  match r.choices with
  | none => .error "AttributeError: choices"
  | some cs =>
    match cs.head? with
    | none => .error "IndexError: list index out of range"
    | some c =>
      match c.message with
      | none => .error "AttributeError: message"
      | some m =>
        match m.content with
        | none => .error "AttributeError: content"
        | some none => .ok ""
        | some (some s) => .ok s

/-- The value found at `response.choices[0].message.content`, when the
whole path exists: `none` when some attribute or the index is missing,
`some none` when the content attribute holds `None`. -/
def pathContent (r : Response) : Option (Option String) :=
  r.choices.bind fun cs =>
    cs.head?.bind fun c =>
      c.message.bind fun m => m.content

/-- `fastmcp.exceptions.ToolError`, carrying its message. -/
structure ToolError where
  message : String
deriving DecidableEq

/-- The configuration error message of lines 230-232. -/
def missingModelMsg : String :=
  "Missing environment variable: LITELLM_MODEL and no model parameter provided"

/-- Python `model or os.environ.get("LITELLM_MODEL")` (line 228): the
first operand wins unless it is `None` or falsy (the empty string). -/
def pyOr (a b : Option String) : Option String :=
  match a with
  | some s => if s.isEmpty then b else some s
  | none => b

/-- The prompt construction of lines 234-243 (Python's adjacent string
literals concatenate into one). -/
def buildPrompt (role_title role_description context task : String) : String :=
  "You are '" ++ role_title ++ "'\n\n# Role Description\n\n" ++ role_description
    ++ "\n\n# Context\n\n" ++ context ++ "\n\n# Task\n\n" ++ task

/-- `ask_the_voice` (lines 81-271), instrumented with the list of
dispatched completion calls.  `complete` is the injected
`litellm.completion`; a `.error e` result stands for a raised exception
whose stringification is `e` (line 264 interpolates it). -/
def ask_the_voice_trace (α : Type) (env : Env)
    (complete : CompletionParams α → Except String Response)
    (role_title role_description context task : String)
    (model : Option String) (temperature : Option α) :
    Except ToolError String × List (CompletionParams α) :=
  match pyOr model (env "LITELLM_MODEL") with
  | none => (.error ⟨missingModelMsg⟩, [])
  | some selected_model =>
    if selected_model.isEmpty then (.error ⟨missingModelMsg⟩, [])
    else
      let prompt := buildPrompt role_title role_description context task
      let params : CompletionParams α :=
        ⟨selected_model,
          [⟨"system", prompt⟩,
           ⟨"user", "Please respond based on the above instructions."⟩],
          temperature⟩
      match complete params with
      | .error e => (.error ⟨"LLM request failed: " ++ e⟩, [params])
      | .ok r =>
        match extractContent r with
        | .ok s => (.ok s, [params])
        | .error e => (.error ⟨"Unexpected response format: " ++ e⟩, [params])

/-- The observable result of `ask_the_voice`. -/
def ask_the_voice (α : Type) (env : Env)
    (complete : CompletionParams α → Except String Response)
    (role_title role_description context task : String)
    (model : Option String) (temperature : Option α) :
    Except ToolError String :=
  (ask_the_voice_trace α env complete role_title role_description context task
    model temperature).1

/-- `parts` occur in `s` in order, as disjoint substrings. -/
def chainedIn : String → List String → Prop
  | _, [] => True
  | s, p :: ps => ∃ pre rest, s = pre ++ p ++ rest ∧ chainedIn rest ps

/-- An environment with only `OPENAI_API_KEY` set. -/
def envOpenAI : Env := fun k => if k = "OPENAI_API_KEY" then some "sk-test" else none

/-- An environment with only the two AWS credential variables set. -/
def envAWS : Env := fun k =>
  if k = "AWS_ACCESS_KEY_ID" then some "id"
  else if k = "AWS_SECRET_ACCESS_KEY" then some "secret" else none

/-- An environment with only `LITELLM_MODEL` set. -/
def envSelected : Env := fun k =>
  if k = "LITELLM_MODEL" then some "custom/model" else none

/-- An entirely empty environment. -/
def emptyEnv : Env := fun _ => none

/-- A completion stub that always raises. -/
def completeNone : CompletionParams Nat → Except String Response :=
  fun _ => .error "network unreachable"

/-- A well-formed response whose first choice's message content is
`"hello"`. -/
def respOk : Response := ⟨some [⟨some ⟨some (some "hello")⟩⟩]⟩

/-- A provider-inference stub knowing only `gpt-4`. -/
def inferGpt : String → Option String :=
  fun s => if s = "gpt-4" then some "openai" else none

/-- A requirement is satisfied iff every one of its named variables is
truthy (for a single key, `[k].all` is the key's own check). -/
theorem KeyReq.satisfied_eq_all (env : Env) (req : KeyReq) :
    req.satisfied env = req.names.all (envTruthy env) := by
  cases req with
  | single k => simp [KeyReq.satisfied, KeyReq.names]
  | multi ks => rfl

/-- Membership in the resolved provider list, unfolded. -/
theorem mem_availableProviders {env : Env} {p : String} :
    p ∈ availableProviders env ↔
      ∃ req, (p, req) ∈ provider_key_mapping ∧ req.satisfied env = true := by
  simp only [availableProviders, List.mem_map, List.mem_filter]
  constructor
  · rintro ⟨⟨q, req⟩, ⟨hmem, hsat⟩, rfl⟩
    exact ⟨req, hmem, hsat⟩
  · rintro ⟨req, hmem, hsat⟩
    exact ⟨(p, req), ⟨hmem, hsat⟩, rfl⟩

/-- In an association list with distinct keys, a key determines its value. -/
theorem assoc_eq_of_nodup_keys {α β : Type} {l : List (α × β)}
    (hnd : (l.map Prod.fst).Nodup) {a : α} {b1 b2 : β}
    (h1 : (a, b1) ∈ l) (h2 : (a, b2) ∈ l) : b1 = b2 := by
  induction l with
  | nil => simp at h1
  | cons x xs ih =>
    simp only [List.map_cons, List.nodup_cons, List.mem_map] at hnd
    rcases List.mem_cons.mp h1 with h1e | h1t <;>
      rcases List.mem_cons.mp h2 with h2e | h2t
    · rw [← h1e] at h2e
      exact (Prod.mk.injEq _ _ _ _ |>.mp h2e.symm).2
    · exact absurd ⟨(a, b2), h2t, by rw [← h1e]⟩ hnd.1
    · exact absurd ⟨(a, b1), h1t, by rw [← h2e]⟩ hnd.1
    · exact ih hnd.2 h1t h2t

/-- The provider names of the table are pairwise distinct. -/
theorem mapping_keys_nodup : (provider_key_mapping.map Prod.fst).Nodup := by
  decide

/-- A provider name determines its requirement in the table. -/
theorem mapping_req_unique {p : String} {r1 r2 : KeyReq}
    (h1 : (p, r1) ∈ provider_key_mapping)
    (h2 : (p, r2) ∈ provider_key_mapping) : r1 = r2 :=
  assoc_eq_of_nodup_keys mapping_keys_nodup h1 h2

/-- C1: a provider of the table is in the resolved available-provider set
iff every one of its required environment variables is present with a
non-empty value (an empty string counts as absent); `KeyReq.single` and
`KeyReq.multi` providers are both covered. -/
theorem available_iff_all_required_present (env : Env) (p : String)
    (req : KeyReq) (hmem : (p, req) ∈ provider_key_mapping) :
    p ∈ availableProviders env ↔ req.names.all (envTruthy env) = true := by
  rw [mem_availableProviders]
  constructor
  · rintro ⟨req2, hmem2, hsat⟩
    rw [← KeyReq.satisfied_eq_all, mapping_req_unique hmem hmem2]
    exact hsat
  · intro h
    exact ⟨req, hmem, by rw [KeyReq.satisfied_eq_all]; exact h⟩

/-- Witness for C1 at a concrete environment and provider. -/
theorem available_iff_all_required_present_witness :
    "openai" ∈ availableProviders envOpenAI ↔
      (KeyReq.single "OPENAI_API_KEY").names.all (envTruthy envOpenAI) = true :=
  available_iff_all_required_present envOpenAI "openai"
    (KeyReq.single "OPENAI_API_KEY") (by decide)

/-- C2 counterexample: in an environment holding exactly the two AWS
credential variables, `bedrock` and `sagemaker` are both available;
unsetting the single variable `AWS_ACCESS_KEY_ID` — one of `bedrock`'s
required variables — also removes `sagemaker`, a different provider, so
the flip does not remove *exactly* the one provider. -/
theorem shared_aws_keys_counterexample :
    ("bedrock",
        KeyReq.multi ["AWS_ACCESS_KEY_ID", "AWS_SECRET_ACCESS_KEY"]) ∈
      provider_key_mapping ∧
    "bedrock" ∈ availableProviders envAWS ∧
    "sagemaker" ∈ availableProviders envAWS ∧
    "sagemaker" ∉ availableProviders (setVar envAWS "AWS_ACCESS_KEY_ID" none) ∧
    "sagemaker" ≠ "bedrock" := by
  decide

/-- C2 (amended): unsetting or emptying one required variable of an
available provider removes that provider from the resolved set, and the
availability of every provider that does not require the flipped variable
is unchanged.  (A provider sharing the variable — `bedrock` and
`sagemaker` share the AWS credential pair — is removed as well, which is
what the original claim missed.) -/
theorem flip_required_var (env : Env) (p : String) (req : KeyReq)
    (k : String) (v : Option String)
    (hmem : (p, req) ∈ provider_key_mapping)
    (hav : p ∈ availableProviders env)
    (hk : k ∈ req.names)
    (hv : strTruthy v = false) :
    p ∉ availableProviders (setVar env k v) ∧
      ∀ q r, (q, r) ∈ provider_key_mapping → k ∉ r.names →
        (q ∈ availableProviders (setVar env k v) ↔ q ∈ availableProviders env) := by
  have hset : envTruthy (setVar env k v) k = false := by
    simp [envTruthy, setVar, hv]
  constructor
  · intro hmem'
    rw [mem_availableProviders] at hmem'
    obtain ⟨req2, hm2, hsat⟩ := hmem'
    rw [mapping_req_unique hm2 hmem, KeyReq.satisfied_eq_all,
      List.all_eq_true] at hsat
    have := hsat k hk
    rw [hset] at this
    exact Bool.false_ne_true this
  · intro q r hmr hknot
    have hsame : r.satisfied (setVar env k v) = r.satisfied env := by
      rw [KeyReq.satisfied_eq_all, KeyReq.satisfied_eq_all,
        Bool.eq_iff_iff, List.all_eq_true, List.all_eq_true]
      constructor <;> intro h x hx <;>
        have hxk : x ≠ k := fun he => hknot (he ▸ hx) <;>
        have hx2 := h x hx <;>
        simpa [envTruthy, setVar, hxk] using hx2
    rw [mem_availableProviders, mem_availableProviders]
    constructor
    · rintro ⟨r2, hm2, hsat⟩
      refine ⟨r2, hm2, ?_⟩
      rwa [mapping_req_unique hm2 hmr, hsame, ← mapping_req_unique hm2 hmr]
        at hsat
    · rintro ⟨r2, hm2, hsat⟩
      refine ⟨r2, hm2, ?_⟩
      rwa [mapping_req_unique hm2 hmr, ← hsame, ← mapping_req_unique hm2 hmr]
        at hsat

/-- Witness for the amended C2 at a concrete environment: unsetting
`AWS_ACCESS_KEY_ID` removes `bedrock`, and `openai` (which does not
require that variable) keeps its availability. -/
theorem flip_required_var_witness :
    "bedrock" ∉ availableProviders (setVar envAWS "AWS_ACCESS_KEY_ID" none) ∧
      ("openai" ∈ availableProviders (setVar envAWS "AWS_ACCESS_KEY_ID" none) ↔
        "openai" ∈ availableProviders envAWS) := by
  have h := flip_required_var envAWS "bedrock"
    (KeyReq.multi ["AWS_ACCESS_KEY_ID", "AWS_SECRET_ACCESS_KEY"])
    "AWS_ACCESS_KEY_ID" none (by decide) (by decide) (by decide) (by decide)
  exact ⟨h.1, h.2 "openai" (KeyReq.single "OPENAI_API_KEY") (by decide) (by decide)⟩

/-- With no usable model argument and an unset or empty `LITELLM_MODEL`,
the trace is the configuration error and no dispatch. -/
theorem trace_of_no_model (α : Type) (env : Env)
    (complete : CompletionParams α → Except String Response)
    (rt rd cx tk : String) (temperature : Option α)
    (h : envTruthy env "LITELLM_MODEL" = false) :
    ask_the_voice_trace α env complete rt rd cx tk none temperature =
      (.error ⟨missingModelMsg⟩, []) := by
  cases he : env "LITELLM_MODEL" with
  | none => simp [ask_the_voice_trace, pyOr, he]
  | some s =>
    have hs : s.isEmpty = true := by
      simpa [envTruthy, strTruthy, he] using h
    simp [ask_the_voice_trace, pyOr, he, hs]

/-- C3: with no model argument and the default-model variable unset (or
set to the empty string, which Python treats the same), `ask_the_voice`
fails with the configuration `ToolError` of lines 230-232, and the
completion dispatch list is empty: `completion` is never invoked (the
result does not depend on `complete` at all). -/
theorem no_model_config_error (α : Type) (env : Env)
    (complete : CompletionParams α → Except String Response)
    (rt rd cx tk : String) (temperature : Option α)
    (h : envTruthy env "LITELLM_MODEL" = false) :
    ask_the_voice_trace α env complete rt rd cx tk none temperature =
      (.error ⟨missingModelMsg⟩, []) :=
  trace_of_no_model α env complete rt rd cx tk temperature h

/-- Witness for C3 in the empty environment. -/
theorem no_model_config_error_witness :
    ask_the_voice_trace Nat emptyEnv completeNone "a" "b" "c" "d" none none =
      (.error ⟨missingModelMsg⟩, []) :=
  no_model_config_error Nat emptyEnv completeNone "a" "b" "c" "d" none rfl

/-- `lexLe` is transitive. -/
theorem lexLe_trans : ∀ a b c : List Char,
    lexLe a b = true → lexLe b c = true → lexLe a c = true
  | [], _, _, _, _ => rfl
  | _ :: _, [], _, h, _ => by simp [lexLe] at h
  | _ :: _, _ :: _, [], _, h => by simp [lexLe] at h
  | a :: as, b :: bs, c :: cs, h1, h2 => by
    simp only [lexLe] at h1 h2 ⊢
    by_cases hab : a.toNat < b.toNat
    · by_cases hbc : b.toNat < c.toNat
      · rw [if_pos (Nat.lt_trans hab hbc)]
      · by_cases hcb : c.toNat < b.toNat
        · rw [if_neg hbc, if_pos hcb] at h2
          exact absurd h2 (by simp)
        · rw [if_pos (show a.toNat < c.toNat by omega)]
    · by_cases hba : b.toNat < a.toNat
      · rw [if_neg hab, if_pos hba] at h1
        exact absurd h1 (by simp)
      · rw [if_neg hab, if_neg hba] at h1
        by_cases hbc : b.toNat < c.toNat
        · rw [if_pos (show a.toNat < c.toNat by omega)]
        · by_cases hcb : c.toNat < b.toNat
          · rw [if_neg hbc, if_pos hcb] at h2
            exact absurd h2 (by simp)
          · rw [if_neg hbc, if_neg hcb] at h2
            rw [if_neg (show ¬ a.toNat < c.toNat by omega),
              if_neg (show ¬ c.toNat < a.toNat by omega)]
            exact lexLe_trans as bs cs h1 h2

/-- `lexLe` is total. -/
theorem lexLe_total : ∀ a b : List Char, lexLe a b = true ∨ lexLe b a = true
  | [], _ => Or.inl rfl
  | _ :: _, [] => Or.inr rfl
  | a :: as, b :: bs => by
    simp only [lexLe]
    rcases Nat.lt_trichotomy a.toNat b.toNat with hab | hab | hab
    · left; simp [hab]
    · have h1 : ¬ a.toNat < b.toNat := by omega
      have h2 : ¬ b.toNat < a.toNat := by omega
      simp only [h1, h2, if_neg, if_false]
      exact lexLe_total as bs
    · right; simp [hab]

instance : IsTrans String strLe :=
  ⟨fun a b c => lexLe_trans a.data b.data c.data⟩

instance : IsTotal String strLe :=
  ⟨fun a b => lexLe_total a.data b.data⟩

/-- C4: whatever the environment, catalog and provider-inference function,
the output of `list_available_models` is sorted ascending in the
code-point lexicographic string order (Python `list.sort`). -/
theorem list_available_models_sorted (env : Env) (cat : List String)
    (infer : String → Option String) :
    (list_available_models env cat infer).Sorted strLe := by
  unfold list_available_models pySort
  exact List.sorted_insertionSort strLe _

/-- C5: whenever `LITELLM_MODEL` holds a non-empty value, that value
appears in the output of `list_available_models`, for every catalog and
every provider-inference function. -/
theorem selected_model_in_output (env : Env) (cat : List String)
    (infer : String → Option String) (v : String)
    (hv : env "LITELLM_MODEL" = some v) (hne : v.isEmpty = false) :
    v ∈ list_available_models env cat infer := by
  unfold list_available_models pySort
  rw [List.mem_insertionSort]
  simp only [hv, hne, Bool.false_eq_true, if_false]
  exact List.mem_cons_self v _

/-- Witness for C5: the selected value matches no catalog entry and no
provider, yet it appears in the output. -/
theorem selected_model_in_output_witness :
    "custom/model" ∈ list_available_models envSelected ["gpt-4"] (fun _ => none) :=
  selected_model_in_output envSelected ["gpt-4"] (fun _ => none) "custom/model"
    (by decide) (by decide)

/-- C6: `list_available_models` is total by construction (it returns for
every catalog), and a catalog entry on which provider inference fails is
skipped silently: the output over a catalog containing it is identical to
the output with the entry removed, so the entry is absent from the output
and the processing of every other entry is unaffected. -/
theorem unresolvable_entry_skipped (env : Env)
    (infer : String → Option String) (pre post : List String) (m : String)
    (hm : infer m = none) :
    list_available_models env (pre ++ m :: post) infer =
      list_available_models env (pre ++ post) infer := by
  unfold list_available_models
  simp only [List.filterMap_append, List.filterMap_cons, hm]

/-- Witness for C6: an entry the inference stub rejects changes nothing
(the spec's own scenario: only `gpt-4` resolves). -/
theorem unresolvable_entry_skipped_witness :
    list_available_models envOpenAI ["gpt-4", "bogus"] inferGpt =
      list_available_models envOpenAI ["gpt-4"] inferGpt :=
  unresolvable_entry_skipped envOpenAI inferGpt ["gpt-4"] [] "bogus" (by decide)

/-- C7: every completion call `ask_the_voice` dispatches carries exactly
the caller's temperature option: the `temperature` key is in the
parameter set iff the caller supplied one, with the supplied value, and
it is absent entirely (not defaulted) when omitted. -/
theorem temperature_iff_supplied (α : Type) (env : Env)
    (complete : CompletionParams α → Except String Response)
    (rt rd cx tk : String) (model : Option String) (temperature : Option α) :
    ∀ p ∈ (ask_the_voice_trace α env complete rt rd cx tk model
        temperature).2, p.temperature = temperature := by
  intro p hp
  unfold ask_the_voice_trace at hp
  cases hsel : pyOr model (env "LITELLM_MODEL") with
  | none => rw [hsel] at hp; simp at hp
  | some m =>
    rw [hsel] at hp
    by_cases he : m.isEmpty
    · simp [he] at hp
    · simp only [he, Bool.false_eq_true, if_false] at hp
      cases hc : complete ⟨m,
          [⟨"system", buildPrompt rt rd cx tk⟩,
           ⟨"user", "Please respond based on the above instructions."⟩],
          temperature⟩ with
      | error e =>
        rw [hc] at hp
        simp only [List.mem_singleton] at hp
        rw [hp]
      | ok r =>
        rw [hc] at hp
        cases hx : extractContent r with
        | ok s =>
          simp only [hx, List.mem_singleton] at hp
          rw [hp]
        | error e =>
          simp only [hx, List.mem_singleton] at hp
          rw [hp]

/-- Witness for C7: the dispatched call of a concrete invocation carries
the supplied temperature. -/
theorem temperature_iff_supplied_witness :
    (⟨"custom/model",
      [⟨"system", buildPrompt "a" "b" "c" "d"⟩,
       ⟨"user", "Please respond based on the above instructions."⟩],
      some 2⟩ : CompletionParams Nat).temperature = some 2 :=
  temperature_iff_supplied Nat envSelected completeNone "a" "b" "c" "d"
    none (some 2) _ (by decide)

/-- `extractContent` case-by-case against the content path: text gives
the text, an explicit `None` gives `""`, a missing path gives an error. -/
theorem extractContent_cases (r : Response) :
    (∀ s, pathContent r = some (some s) → extractContent r = .ok s) ∧
      (pathContent r = some none → extractContent r = .ok "") ∧
      (pathContent r = none → ∃ e, extractContent r = .error e) := by
  obtain ⟨choices⟩ := r
  cases choices with
  | none => exact ⟨by simp [pathContent], by simp [pathContent],
      fun _ => ⟨_, rfl⟩⟩
  | some cs =>
    cases cs with
    | nil => exact ⟨by simp [pathContent], by simp [pathContent],
        fun _ => ⟨_, rfl⟩⟩
    | cons c cs2 =>
      obtain ⟨msg⟩ := c
      cases msg with
      | none => exact ⟨by simp [pathContent], by simp [pathContent],
          fun _ => ⟨_, rfl⟩⟩
      | some mm =>
        obtain ⟨cont⟩ := mm
        cases cont with
        | none => exact ⟨by simp [pathContent], by simp [pathContent],
            fun _ => ⟨_, rfl⟩⟩
        | some oc =>
          cases oc with
          | none =>
            refine ⟨fun s hs => ?_, fun _ => rfl, fun h => ?_⟩
            · simp [pathContent] at hs
            · simp [pathContent] at h
          | some s =>
            refine ⟨fun s2 hs => ?_, fun h => ?_, fun h => ?_⟩
            · simp [pathContent] at hs
              rw [hs]
              rfl
            · simp [pathContent] at h
            · simp [pathContent] at h

/-- After a successful dispatch returning `r`, `ask_the_voice` is the
image of `extractContent r`: text passes through, extraction errors are
wrapped into the normalized format error of line 271. -/
theorem ask_of_ok_response (α : Type) (env : Env) (rt rd cx tk m : String)
    (r : Response) (temperature : Option α) (hm : m.isEmpty = false) :
    ask_the_voice α env (fun _ => .ok r) rt rd cx tk (some m) temperature =
      (match extractContent r with
        | .ok s => .ok s
        | .error e => .error ⟨"Unexpected response format: " ++ e⟩) := by
  cases hx : extractContent r with
  | ok s =>
    simp [ask_the_voice, ask_the_voice_trace, pyOr, hm, hx]
  | error e =>
    simp [ask_the_voice, ask_the_voice_trace, pyOr, hm, hx]

/-- C8: for every downstream response reached after a successful
dispatch, `ask_the_voice` returns the first choice's message text; when
the path `choices[0].message.content` is missing (no choices attribute,
empty choices, no message, no content attribute) it fails with the
normalized "Unexpected response format" `ToolError` — never a raw
downstream error — and when the content is present but explicitly null
it returns the empty string. -/
theorem response_extraction (env : Env) (rt rd cx tk m : String)
    (r : Response) (hm : m.isEmpty = false) :
    (∀ s, pathContent r = some (some s) →
        ask_the_voice Unit env (fun _ => .ok r) rt rd cx tk (some m) none =
          .ok s) ∧
      (pathContent r = some none →
        ask_the_voice Unit env (fun _ => .ok r) rt rd cx tk (some m) none =
          .ok "") ∧
      (pathContent r = none →
        ∃ e, ask_the_voice Unit env (fun _ => .ok r) rt rd cx tk (some m)
            none = .error ⟨"Unexpected response format: " ++ e⟩) := by
  obtain ⟨htext, hnull, herr⟩ := extractContent_cases r
  refine ⟨fun s hs => ?_, fun h => ?_, fun h => ?_⟩
  · rw [ask_of_ok_response Unit env rt rd cx tk m r none hm, htext s hs]
  · rw [ask_of_ok_response Unit env rt rd cx tk m r none hm, hnull h]
  · obtain ⟨e, he⟩ := herr h
    exact ⟨e, by rw [ask_of_ok_response Unit env rt rd cx tk m r none hm, he]⟩

/-- Witness for C8: a well-formed response yields its text, a response
with a null content yields `""`, and a response without choices yields
the normalized format error. -/
theorem response_extraction_witness :
    ask_the_voice Unit emptyEnv (fun _ => .ok respOk) "a" "b" "c" "d"
        (some "mm") none = .ok "hello" ∧
      ask_the_voice Unit emptyEnv (fun _ => .ok (⟨some [⟨some ⟨some none⟩⟩]⟩ :
          Response)) "a" "b" "c" "d" (some "mm") none = .ok "" ∧
      ∃ e, ask_the_voice Unit emptyEnv (fun _ => .ok (⟨none⟩ : Response))
          "a" "b" "c" "d" (some "mm") none =
        .error ⟨"Unexpected response format: " ++ e⟩ :=
  ⟨(response_extraction emptyEnv "a" "b" "c" "d" "mm" respOk (by decide)).1
      "hello" (by decide),
    (response_extraction emptyEnv "a" "b" "c" "d" "mm" ⟨some [⟨some ⟨some none⟩⟩]⟩
      (by decide)).2.1 (by decide),
    (response_extraction emptyEnv "a" "b" "c" "d" "mm" ⟨none⟩
      (by decide)).2.2 (by decide)⟩

/-- C9: the prompt compiler is a total Lean function (hence deterministic
and never failing, for arbitrary fields including empty strings) and its
output contains, in order and verbatim: the role line quoting the title,
the role-description header and body, the context header and body, and
the task header and body. -/
theorem prompt_sections_in_order (t d c k : String) :
    chainedIn (buildPrompt t d c k)
      ["You are '" ++ t ++ "'", "# Role Description", d, "# Context", c,
        "# Task", k] := by
  have l1 : ("'\n\n# Role Description\n\n" : String) =
      "'" ++ "\n\n" ++ "# Role Description" ++ "\n\n" := rfl
  have l2 : ("\n\n# Context\n\n" : String) =
      "\n\n" ++ "# Context" ++ "\n\n" := rfl
  have l3 : ("\n\n# Task\n\n" : String) = "\n\n" ++ "# Task" ++ "\n\n" := rfl
  simp only [chainedIn]
  refine ⟨"", "\n\n" ++ ("# Role Description" ++ ("\n\n" ++ (d ++ ("\n\n" ++
    ("# Context" ++ ("\n\n" ++ (c ++ ("\n\n" ++ ("# Task" ++ ("\n\n" ++
    (k ++ ""))))))))))), ?_,
    "\n\n", "\n\n" ++ (d ++ ("\n\n" ++ ("# Context" ++ ("\n\n" ++ (c ++
      ("\n\n" ++ ("# Task" ++ ("\n\n" ++ (k ++ ""))))))))), ?_,
    "\n\n", "\n\n" ++ ("# Context" ++ ("\n\n" ++ (c ++ ("\n\n" ++
      ("# Task" ++ ("\n\n" ++ (k ++ ""))))))), ?_,
    "\n\n", "\n\n" ++ (c ++ ("\n\n" ++ ("# Task" ++ ("\n\n" ++ (k ++ ""))))),
    ?_,
    "\n\n", "\n\n" ++ ("# Task" ++ ("\n\n" ++ (k ++ ""))), ?_,
    "\n\n", "\n\n" ++ (k ++ ""), ?_,
    "\n\n", "", ?_, trivial⟩
  all_goals
    simp only [buildPrompt, l1, l2, l3, String.append_assoc,
      String.append_empty, String.empty_append]

/-- C10: supplying the model argument as the empty string behaves exactly
like omitting it — `model or os.environ.get(...)` treats `""` as falsy —
so the effective model falls back to `LITELLM_MODEL`, and when that
variable is unset or empty too, the configuration error is raised with no
dispatch. -/
theorem empty_model_arg_like_absent (α : Type) (env : Env)
    (complete : CompletionParams α → Except String Response)
    (rt rd cx tk : String) (temperature : Option α) :
    ask_the_voice_trace α env complete rt rd cx tk (some "") temperature =
        ask_the_voice_trace α env complete rt rd cx tk none temperature ∧
      (envTruthy env "LITELLM_MODEL" = false →
        ask_the_voice_trace α env complete rt rd cx tk (some "") temperature =
          (.error ⟨missingModelMsg⟩, [])) := by
  have h1 : ask_the_voice_trace α env complete rt rd cx tk (some "")
      temperature =
      ask_the_voice_trace α env complete rt rd cx tk none temperature := by
    have hemp : ("" : String).isEmpty = true := rfl
    simp [ask_the_voice_trace, pyOr, hemp]
  exact ⟨h1, fun h =>
    h1.trans (trace_of_no_model α env complete rt rd cx tk temperature h)⟩

/-- Witness for C10 in the empty environment. -/
theorem empty_model_arg_like_absent_witness :
    ask_the_voice_trace Nat emptyEnv completeNone "a" "b" "c" "d" (some "")
        none = (.error ⟨missingModelMsg⟩, []) :=
  (empty_model_arg_like_absent Nat emptyEnv completeNone "a" "b" "c" "d"
    none).2 rfl
